import Mathlib

/-!
Verification of the mailing-list service (src/myenv/api.py, src/myenv/dal.py).

The data-access layer (dal.py) is embedded as pure functions over an explicit
database state `DB`; each DAO call commits independently, so one Lean function
per DAO method, returning its result together with the successor state.
Deletions follow the ORM relationship cascades declared in dal.py
(`cascade="all, delete-orphan"` on User.mailing_lists / User.templates /
User.mailings, MailingList.subscribers / MailingList.mailings and
Template.mailings): deleting a row through `session.delete` also deletes the
rows held in those collections (a detached instance with an identity key is
re-attached by `session.delete`, so deletes do flush).  The four update
methods, in contrast, never touch the stored rows: each fetches the row
through the corresponding by-id getter, which opens and closes its OWN
session, leaving the instance detached; the attribute assignments are made
on that detached instance and the outer `session.commit ()` commits an
empty session, so no UPDATE is emitted — the methods return the modified
object while the database state is unchanged.

The API layer (api.py) is embedded one function per route handler, taking the
already-authenticated caller where the handler depends on `get_current_user`.
HTTP errors are `HErr` values (status code and detail string); handlers that
mutate state return the result paired with the final database state, since a
DAO commit that happened before an `HTTPException` was raised persists.

External libraries are idealised where the source calls them:
* passlib/bcrypt (`get_hashed_password`, `verify_password`) becomes a
  deterministic injective digest, with verification an equality test against
  the digest of the plaintext;
* python-jose (`jwt.encode` / `jwt.decode`) becomes a pair of the payload and
  an idealised MAC (the signing key paired with the signed payload);
  `jwt.decode` checks the MAC and rejects an elapsed expiry (`exp < now`,
  zero leeway), and `verify_token` turns every failure into `none`.
-/

/-- An HTTP error as raised by `HTTPException(status_code, detail)`. -/
structure HErr where
  status : Nat
  detail : String
deriving DecidableEq, Repr

/-- Idealised deterministic model of `pwd_context.hash` (api.py line 138):
an injective digest of the plaintext. -/
def get_hashed_password (password : String) : String :=
  "bcrypt$" ++ password

/-- Model of `pwd_context.verify` (api.py line 142): verification succeeds
exactly on the digest of the plaintext. -/
def verify_password (password hashed_password : String) : Bool :=
  hashed_password == get_hashed_password password

/-- Decoded JWT payload: the `user_id` claim (possibly absent, as
`payload.get ( "user_id" )` may return None) and the `exp` claim. -/
structure TokenPayload where
  user_id : Option Nat
  exp : Nat
deriving DecidableEq, Repr

/-- A JWT: its payload plus an idealised HMAC signature (the signing key
paired with the payload that was signed). -/
structure Jwt where
  payload : TokenPayload
  sig : String × TokenPayload
deriving DecidableEq, Repr

/-- Model of `jwt.encode ( to_encode, SECRET_KEY, algorithm=ALGORITHM )`. -/
def jwt_encode (key : String) (p : TokenPayload) : Jwt :=
  ⟨p, (key, p)⟩

/-- Model of `jwt.decode`: checks the signature against the key and rejects
an elapsed expiry (python-jose raises ExpiredSignatureError iff exp < now,
with the default leeway of 0). -/
def jwt_decode (key : String) (now : Nat) (t : Jwt) : Option TokenPayload :=
  if t.sig = (key, t.payload) ∧ now ≤ t.payload.exp then some t.payload else none

/-- api.py line 148. -/
def ACCESS_TOKEN_EXPIRE_MINUTES : Nat := 30

/-- `create_access_token` (api.py lines 151-156) at the default
`expires_delta`: the payload carries the caller-supplied `user_id` claim and
`exp = now + 30 minutes`.  Time is measured in seconds. -/
def create_access_token (key : String) (now : Nat) (uid : Nat) : Jwt :=
  jwt_encode key ⟨some uid, now + ACCESS_TOKEN_EXPIRE_MINUTES * 60⟩

/-- `verify_token` (api.py lines 159-164): any decode failure becomes `none`
rather than an exception. -/
def verify_token (key : String) (now : Nat) (t : Jwt) : Option TokenPayload :=
  jwt_decode key now t

/-- Row of the `users` table (dal.py lines 16-28). -/
structure User where
  id : Nat
  username : String
  hashed_password : String
  email : String
  is_active : Bool
  is_admin : Bool
deriving DecidableEq, Repr

/-- Row of the `mailing_lists` table (dal.py lines 31-39). -/
structure MailingList where
  id : Nat
  name : String
  user_id : Nat
deriving DecidableEq, Repr

/-- Row of the `subscribers` table (dal.py lines 42-49). -/
structure Subscriber where
  id : Nat
  email : String
  mailing_list_id : Nat
deriving DecidableEq, Repr

/-- Row of the `templates` table (dal.py lines 52-61). -/
structure Template where
  id : Nat
  name : String
  content : String
  user_id : Nat
deriving DecidableEq, Repr

/-- Row of the `mailings` table (dal.py lines 64-75); timestamps are
abstracted to naturals. -/
structure Mailing where
  id : Nat
  mailing_list_id : Nat
  template_id : Nat
  scheduled_at : Option Nat
  sent_at : Option Nat
  user_id : Nat
deriving DecidableEq, Repr

/-- The database: the five tables plus one autoincrement counter per table. -/
structure DB where
  users : List User
  mailing_lists : List MailingList
  subscribers : List Subscriber
  templates : List Template
  mailings : List Mailing
  next_user_id : Nat
  next_mailing_list_id : Nat
  next_subscriber_id : Nat
  next_template_id : Nat
  next_mailing_id : Nat
deriving DecidableEq, Repr

/-- The freshly created schema: empty tables, sequences starting at 1. -/
def initialDB : DB :=
  ⟨[], [], [], [], [], 1, 1, 1, 1, 1⟩

/-- Python truthiness on an optional string argument defaulting to `None`:
`if v:` is false for `None` and for the empty string. -/
def applyOptStr (cur : String) (v : Option String) : String :=
  match v with
  | some s => if s.isEmpty then cur else s
  | none => cur

instance : DecidableEq (Except String (Subscriber × DB)) := fun a b =>
  match a, b with
  | .error e₁, .error e₂ =>
    if h : e₁ = e₂ then .isTrue (by rw [h]) else .isFalse (by intro hc; cases hc; exact h rfl)
  | .ok v₁, .ok v₂ =>
    if h : v₁ = v₂ then .isTrue (by rw [h]) else .isFalse (by intro hc; cases hc; exact h rfl)
  | .error _, .ok _ => .isFalse (by intro hc; cases hc)
  | .ok _, .error _ => .isFalse (by intro hc; cases hc)

namespace UserDAO

/-- `UserDAO.get_user_by_id` (dal.py lines 136-138). -/
def get_user_by_id (db : DB) (user_id : Nat) : Option User :=
  db.users.find? (fun u => u.id == user_id)

/-- `UserDAO.get_user_by_username` (dal.py lines 126-129). -/
def get_user_by_username (db : DB) (username : String) : Option User :=
  db.users.find? (fun u => u.username == username)

/-- `UserDAO.create_user` (dal.py lines 118-124).  The insert commits, and
the schema's unique constraints on `users.username` and `users.email`
(dal.py lines 20, 22) reject a duplicate with an integrity error. -/
def create_user (db : DB) (username hashed_password email : String)
    (is_admin : Bool) : Except String (User × DB) :=
  if db.users.any (fun u => u.username == username || u.email == email) then
    .error "IntegrityError"
  else
    let u : User := ⟨db.next_user_id, username, hashed_password, email, true, is_admin⟩
    .ok (u, { db with users := db.users ++ [u], next_user_id := db.next_user_id + 1 })

/-- `UserDAO.update_user` (dal.py lines 140-155): each string field is
applied only when truthy (non-None, non-empty); `is_admin` is applied
whenever it is not None.  The row is fetched through `get_user_by_id`,
which opens and closes its own session, so the instance being mutated is
detached; the attribute writes are never flushed and the outer
`session.commit ()` commits an empty session — the method returns the
modified object but the database rows are unchanged. -/
def update_user (db : DB) (user_id : Nat)
    (username hashed_password email : Option String) (is_admin : Option Bool) :
    Option User × DB :=
  match get_user_by_id db user_id with
  | some u =>
    let u' : User :=
      { u with
        username := applyOptStr u.username username,
        hashed_password := applyOptStr u.hashed_password hashed_password,
        email := applyOptStr u.email email,
        is_admin := match is_admin with | some b => b | none => u.is_admin }
    (some u', db)
  | none => (none, db)

/-- `UserDAO.get_all_users` (dal.py lines 157-160). -/
def get_all_users (db : DB) : List User :=
  db.users

/-- `UserDAO.delete_user` (dal.py lines 162-169).  `session.delete ( user )`
follows the ORM cascades: the user's mailing lists, templates and mailings
(dal.py lines 26-28), each deleted mailing list's subscribers and mailings
(dal.py lines 38-39), and each deleted template's mailings (dal.py line 61). -/
def delete_user (db : DB) (user_id : Nat) : Bool × DB :=
  match get_user_by_id db user_id with
  | some _ =>
    let deadLists := (db.mailing_lists.filter (fun l => l.user_id == user_id)).map MailingList.id
    let deadTemplates := (db.templates.filter (fun t => t.user_id == user_id)).map Template.id
    (true,
      { db with
        users := db.users.filter (fun u => !(u.id == user_id)),
        mailing_lists := db.mailing_lists.filter (fun l => !(l.user_id == user_id)),
        templates := db.templates.filter (fun t => !(t.user_id == user_id)),
        subscribers := db.subscribers.filter (fun s => !(deadLists.contains s.mailing_list_id)),
        mailings := db.mailings.filter
          (fun m => !(m.user_id == user_id || deadLists.contains m.mailing_list_id
              || deadTemplates.contains m.template_id)) })
  | none => (false, db)

end UserDAO

namespace MailingListDAO

/-- `MailingListDAO.get_mailing_list_by_id` (dal.py lines 186-189). -/
def get_mailing_list_by_id (db : DB) (mailing_list_id : Nat) : Option MailingList :=
  db.mailing_lists.find? (fun l => l.id == mailing_list_id)

/-- `MailingListDAO.get_mailing_lists_by_user_id` (dal.py lines 191-194). -/
def get_mailing_lists_by_user_id (db : DB) (user_id : Nat) : List MailingList :=
  db.mailing_lists.filter (fun l => l.user_id == user_id)

/-- `MailingListDAO.create_mailing_list` (dal.py lines 178-184). -/
def create_mailing_list (db : DB) (name : String) (user_id : Nat) :
    MailingList × DB :=
  let l : MailingList := ⟨db.next_mailing_list_id, name, user_id⟩
  (l, { db with mailing_lists := db.mailing_lists ++ [l],
                next_mailing_list_id := db.next_mailing_list_id + 1 })

/-- `MailingListDAO.update_mailing_list` (dal.py lines 196-203): a rename
is attempted only under `if mailing_list and name:`; with a falsy name the
call returns None even when the row exists.  The row comes from
`get_mailing_list_by_id`, whose own session has closed, so the rename is
written to a detached instance and the outer commit flushes nothing — the
renamed object is returned but the database rows are unchanged. -/
def update_mailing_list (db : DB) (mailing_list_id : Nat) (name : Option String) :
    Option MailingList × DB :=
  match get_mailing_list_by_id db mailing_list_id with
  | some l =>
    match name with
    | some n =>
      if n.isEmpty then (none, db)
      else
        let l' : MailingList := { l with name := n }
        (some l', db)
    | none => (none, db)
  | none => (none, db)

/-- `MailingListDAO.delete_mailing_list` (dal.py lines 205-212).
`session.delete` follows the ORM cascades of dal.py lines 38-39: the list's
subscribers and its mailings are deleted with it. -/
def delete_mailing_list (db : DB) (mailing_list_id : Nat) : Bool × DB :=
  match get_mailing_list_by_id db mailing_list_id with
  | some _ =>
    (true,
      { db with
        mailing_lists := db.mailing_lists.filter (fun l => !(l.id == mailing_list_id)),
        subscribers := db.subscribers.filter (fun s => !(s.mailing_list_id == mailing_list_id)),
        mailings := db.mailings.filter (fun m => !(m.mailing_list_id == mailing_list_id)) })
  | none => (false, db)

end MailingListDAO

namespace SubscriberDAO

/-- `SubscriberDAO.get_subscriber_by_id` (dal.py lines 248-251). -/
def get_subscriber_by_id (db : DB) (subscriber_id : Nat) : Option Subscriber :=
  db.subscribers.find? (fun s => s.id == subscriber_id)

/-- `SubscriberDAO.get_subscribers_by_mailing_list_id` (dal.py lines 233-237). -/
def get_subscribers_by_mailing_list_id (db : DB) (mailing_list_id : Nat) :
    List Subscriber :=
  db.subscribers.filter (fun s => s.mailing_list_id == mailing_list_id)

/-- `SubscriberDAO.create_subscriber` (dal.py lines 220-226).  The insert
commits, and the schema's global unique constraint on `subscribers.email`
(dal.py line 46) rejects an email present in any row of the table —
whatever mailing list it belongs to — with an integrity error. -/
def create_subscriber (db : DB) (email : String) (mailing_list_id : Nat) :
    Except String (Subscriber × DB) :=
  if db.subscribers.any (fun s => s.email == email) then
    .error "IntegrityError"
  else
    let s : Subscriber := ⟨db.next_subscriber_id, email, mailing_list_id⟩
    .ok (s, { db with subscribers := db.subscribers ++ [s],
                      next_subscriber_id := db.next_subscriber_id + 1 })

/-- `SubscriberDAO.delete_subscriber` (dal.py lines 239-246). -/
def delete_subscriber (db : DB) (subscriber_id : Nat) : Bool × DB :=
  match get_subscriber_by_id db subscriber_id with
  | some _ =>
    (true, { db with subscribers := db.subscribers.filter (fun s => !(s.id == subscriber_id)) })
  | none => (false, db)

end SubscriberDAO

namespace TemplateDAO

/-- `TemplateDAO.get_template_by_id` (dal.py lines 268-271). -/
def get_template_by_id (db : DB) (template_id : Nat) : Option Template :=
  db.templates.find? (fun t => t.id == template_id)

/-- `TemplateDAO.get_templates_by_user_id` (dal.py lines 273-276). -/
def get_templates_by_user_id (db : DB) (user_id : Nat) : List Template :=
  db.templates.filter (fun t => t.user_id == user_id)

/-- `TemplateDAO.create_template` (dal.py lines 260-266). -/
def create_template (db : DB) (name content : String) (user_id : Nat) :
    Template × DB :=
  let t : Template := ⟨db.next_template_id, name, content, user_id⟩
  (t, { db with templates := db.templates ++ [t],
                next_template_id := db.next_template_id + 1 })

/-- `TemplateDAO.update_template` (dal.py lines 278-288): name and content
are applied independently when truthy; the row, found, is always returned.
As in the other update methods, the mutated instance is detached (fetched
by `get_template_by_id` in its own, closed session) and the outer commit
flushes nothing, so the database rows are unchanged. -/
def update_template (db : DB) (template_id : Nat) (name content : Option String) :
    Option Template × DB :=
  match get_template_by_id db template_id with
  | some t =>
    let t' : Template :=
      { t with
        name := applyOptStr t.name name,
        content := applyOptStr t.content content }
    (some t', db)
  | none => (none, db)

/-- `TemplateDAO.delete_template` (dal.py lines 290-297).  `session.delete`
follows the ORM cascade of dal.py line 61: the template's mailings are
deleted with it. -/
def delete_template (db : DB) (template_id : Nat) : Bool × DB :=
  match get_template_by_id db template_id with
  | some _ =>
    (true,
      { db with
        templates := db.templates.filter (fun t => !(t.id == template_id)),
        mailings := db.mailings.filter (fun m => !(m.template_id == template_id)) })
  | none => (false, db)

end TemplateDAO

namespace MailingDAO

/-- `MailingDAO.get_mailing_by_id` (dal.py lines 315-318). -/
def get_mailing_by_id (db : DB) (mailing_id : Nat) : Option Mailing :=
  db.mailings.find? (fun m => m.id == mailing_id)

/-- `MailingDAO.get_mailings_by_user_id` (dal.py lines 329-332). -/
def get_mailings_by_user_id (db : DB) (user_id : Nat) : List Mailing :=
  db.mailings.filter (fun m => m.user_id == user_id)

/-- `MailingDAO.get_all_mailings` (dal.py lines 334-337). -/
def get_all_mailings (db : DB) : List Mailing :=
  db.mailings

/-- `MailingDAO.create_mailing` (dal.py lines 305-313). -/
def create_mailing (db : DB) (mailing_list_id template_id : Nat)
    (scheduled_at : Option Nat) (user_id : Nat) : Mailing × DB :=
  let m : Mailing := ⟨db.next_mailing_id, mailing_list_id, template_id, scheduled_at, none, user_id⟩
  (m, { db with mailings := db.mailings ++ [m],
                next_mailing_id := db.next_mailing_id + 1 })

/-- `MailingDAO.update_mailing` (dal.py lines 320-327): sets `sent_at` on
the returned object only — the instance is detached (fetched by
`get_mailing_by_id` in its own, closed session), so the write is never
flushed and the database rows are unchanged. -/
def update_mailing (db : DB) (mailing_id : Nat) (sent_at : Option Nat) :
    Option Mailing × DB :=
  match get_mailing_by_id db mailing_id with
  | some m =>
    let m' : Mailing := { m with sent_at := sent_at }
    (some m', db)
  | none => (none, db)

end MailingDAO

namespace api

/-- `UserCreate` (api.py lines 24-28); `is_admin` defaults to False in the
request schema, but any value sent by the caller is taken as-is. -/
structure UserCreate where
  username : String
  password : String
  email : String
  is_admin : Bool
deriving DecidableEq, Repr

/-- `get_current_user` (api.py lines 88-100).  The argument `token` is the
bearer token extracted by `oauth2_scheme`; `none` models a request without
one, which the scheme itself rejects with 401 "Not authenticated" (FastAPI
`OAuth2PasswordBearer` with its default `auto_error=True`). -/
def get_current_user (key : String) (now : Nat) (token : Option Jwt) (db : DB) :
    Except HErr User :=
  match token with
  | none => .error ⟨401, "Not authenticated"⟩
  | some t =>
    match verify_token key now t with
    | none => .error ⟨401, "Invalid token"⟩
    | some payload =>
      match payload.user_id with
      | none => .error ⟨401, "Invalid token"⟩
      | some uid =>
        match UserDAO.get_user_by_id db uid with
        | none => .error ⟨401, "Invalid user"⟩
        | some u => .ok u

/-- `get_current_admin` (api.py lines 104-107). -/
def get_current_admin (current_user : User) : Except HErr User :=
  if current_user.is_admin then .ok current_user
  else .error ⟨403, "You must be an admin"⟩

/-- `login_for_access_token` (api.py lines 168-175). -/
def login_for_access_token (key : String) (now : Nat) (db : DB)
    (username password : String) : Except HErr Jwt :=
  match UserDAO.get_user_by_username db username with
  | none => .error ⟨401, "Invalid username or password"⟩
  | some u =>
    if verify_password password u.hashed_password then
      .ok (create_access_token key now u.id)
    else .error ⟨401, "Invalid username or password"⟩

/-- `create_new_user` (api.py lines 179-183): the route has no
authentication dependency, hashes the password, and passes `is_admin`
straight through to the DAO.  A uniqueness violation propagates as the
DAO's integrity error. -/
def create_new_user (db : DB) (user : UserCreate) : Except String (User × DB) :=
  UserDAO.create_user db user.username (get_hashed_password user.password)
    user.email user.is_admin

/-- `update_user` (api.py lines 191-199): admin-gated; all four fields are
passed to the DAO (as present values). -/
def update_user (db : DB) (current_user : User) (user_id : Nat)
    (user : UserCreate) : Except HErr (User × DB) :=
  match get_current_admin current_user with
  | .error e => .error e
  | .ok _ =>
    let r := UserDAO.update_user db user_id (some user.username)
      (some (get_hashed_password user.password)) (some user.email) (some user.is_admin)
    match r.1 with
    | some u => .ok (u, r.2)
    | none => .error ⟨404, "User not found"⟩

/-- `read_all_users` (api.py lines 202-205): admin-gated. -/
def read_all_users (db : DB) (current_user : User) : Except HErr (List User) :=
  match get_current_admin current_user with
  | .error e => .error e
  | .ok _ => .ok (UserDAO.get_all_users db)

/-- `delete_user` (api.py lines 208-212): admin-gated. -/
def delete_user (db : DB) (current_user : User) (user_id : Nat) :
    Except HErr Unit × DB :=
  match get_current_admin current_user with
  | .error e => (.error e, db)
  | .ok _ =>
    let r := UserDAO.delete_user db user_id
    if r.1 then (.ok (), r.2) else (.error ⟨404, "User not found"⟩, r.2)

/-- `create_new_mailing_list` (api.py lines 216-219). -/
def create_new_mailing_list (db : DB) (current_user : User) (name : String) :
    MailingList × DB :=
  MailingListDAO.create_mailing_list db name current_user.id

/-- `read_all_mailing_lists` (api.py lines 222-225). -/
def read_all_mailing_lists (db : DB) (current_user : User) : List MailingList :=
  MailingListDAO.get_mailing_lists_by_user_id db current_user.id

/-- `read_mailing_list` (api.py lines 228-234): absent and not-owned rows
get the same 404. -/
def read_mailing_list (db : DB) (current_user : User) (mailing_list_id : Nat) :
    Except HErr MailingList :=
  match MailingListDAO.get_mailing_list_by_id db mailing_list_id with
  | none => .error ⟨404, "Mailing list not found"⟩
  | some l =>
    if l.user_id = current_user.id then .ok l
    else .error ⟨404, "Mailing list not found"⟩

/-- `update_mailing_list` (api.py lines 237-245): the handler calls the DAO
update first and checks ownership only on the returned row; since the DAO
update never persists (detached instance), the database is unchanged on
every path, and a not-owned row gets the same 404 as an absent one. -/
def update_mailing_list (db : DB) (current_user : User) (mailing_list_id : Nat)
    (name : String) : Except HErr MailingList × DB :=
  let r := MailingListDAO.update_mailing_list db mailing_list_id (some name)
  match r.1 with
  | none => (.error ⟨404, "Mailing list not found"⟩, r.2)
  | some l =>
    if l.user_id = current_user.id then (.ok l, r.2)
    else (.error ⟨404, "Mailing list not found"⟩, r.2)

/-- `delete_mailing_list` (api.py lines 248-255): ownership is checked
before the DAO delete; absent and not-owned rows get the same 404. -/
def delete_mailing_list (db : DB) (current_user : User) (mailing_list_id : Nat) :
    Except HErr Unit × DB :=
  match MailingListDAO.get_mailing_list_by_id db mailing_list_id with
  | none => (.error ⟨404, "Mailing list not found"⟩, db)
  | some l =>
    if l.user_id = current_user.id then
      let r := MailingListDAO.delete_mailing_list db mailing_list_id
      if r.1 then (.ok (), r.2) else (.error ⟨404, "Mailing list not found"⟩, r.2)
    else (.error ⟨404, "Mailing list not found"⟩, db)

/-- `create_new_subscriber` (api.py lines 259-266): the parent list must
exist and be owned by the caller (404 otherwise, checked before the
insert); the DAO's integrity error on a duplicate email surfaces as an
unhandled persistence error (500). -/
def create_new_subscriber (db : DB) (current_user : User) (email : String)
    (mailing_list_id : Nat) : Except HErr Subscriber × DB :=
  match MailingListDAO.get_mailing_list_by_id db mailing_list_id with
  | none => (.error ⟨404, "Mailing list not found"⟩, db)
  | some l =>
    if l.user_id = current_user.id then
      match SubscriberDAO.create_subscriber db email mailing_list_id with
      | .error e => (.error ⟨500, e⟩, db)
      | .ok (s, db') => (.ok s, db')
    else (.error ⟨404, "Mailing list not found"⟩, db)

/-- `read_all_subscribers` (api.py lines 269-276). -/
def read_all_subscribers (db : DB) (current_user : User) (mailing_list_id : Nat) :
    Except HErr (List Subscriber) :=
  match MailingListDAO.get_mailing_list_by_id db mailing_list_id with
  | none => .error ⟨404, "Mailing list not found"⟩
  | some l =>
    if l.user_id = current_user.id then
      .ok (SubscriberDAO.get_subscribers_by_mailing_list_id db mailing_list_id)
    else .error ⟨404, "Mailing list not found"⟩

/-- `delete_subscriber` (api.py lines 279-291): the subscriber must exist,
and its parent list must exist and be owned by the caller. -/
def delete_subscriber (db : DB) (current_user : User) (subscriber_id : Nat) :
    Except HErr Unit × DB :=
  match SubscriberDAO.get_subscriber_by_id db subscriber_id with
  | none => (.error ⟨404, "Subscriber not found"⟩, db)
  | some s =>
    match MailingListDAO.get_mailing_list_by_id db s.mailing_list_id with
    | none => (.error ⟨404, "Mailing list not found"⟩, db)
    | some l =>
      if l.user_id = current_user.id then
        let r := SubscriberDAO.delete_subscriber db subscriber_id
        if r.1 then (.ok (), r.2) else (.error ⟨404, "Subscriber not found"⟩, r.2)
      else (.error ⟨404, "Mailing list not found"⟩, db)

/-- `create_new_template` (api.py lines 295-298). -/
def create_new_template (db : DB) (current_user : User) (name content : String) :
    Template × DB :=
  TemplateDAO.create_template db name content current_user.id

/-- `read_all_templates` (api.py lines 301-304). -/
def read_all_templates (db : DB) (current_user : User) : List Template :=
  TemplateDAO.get_templates_by_user_id db current_user.id

/-- `read_template` (api.py lines 307-313): absent and not-owned rows get
the same 404. -/
def read_template (db : DB) (current_user : User) (template_id : Nat) :
    Except HErr Template :=
  match TemplateDAO.get_template_by_id db template_id with
  | none => .error ⟨404, "Template not found"⟩
  | some t =>
    if t.user_id = current_user.id then .ok t
    else .error ⟨404, "Template not found"⟩

/-- `update_template` (api.py lines 316-324): like the mailing-list update,
the DAO update runs before the ownership check but never persists; absent
and not-owned rows get the same 404. -/
def update_template (db : DB) (current_user : User) (template_id : Nat)
    (name content : String) : Except HErr Template × DB :=
  let r := TemplateDAO.update_template db template_id (some name) (some content)
  match r.1 with
  | none => (.error ⟨404, "Template not found"⟩, r.2)
  | some t =>
    if t.user_id = current_user.id then (.ok t, r.2)
    else (.error ⟨404, "Template not found"⟩, r.2)

/-- `delete_template` (api.py lines 327-336): the only owner-scoped handler
that distinguishes absent (404) from exists-but-not-owned (403). -/
def delete_template (db : DB) (current_user : User) (template_id : Nat) :
    Except HErr Unit × DB :=
  match TemplateDAO.get_template_by_id db template_id with
  | none => (.error ⟨404, "Template not found"⟩, db)
  | some t =>
    if t.user_id = current_user.id then
      let r := TemplateDAO.delete_template db template_id
      if r.1 then (.ok (), r.2) else (.error ⟨404, "Template not found"⟩, r.2)
    else (.error ⟨403, "You are not allowed to delete this template"⟩, db)

end api

/-! Concrete scenario used by several witnesses and counterexamples:
two users, user 1 owning one mailing list, one subscriber, one template
and one mailing; user 2 owns nothing. -/

def userA : User := ⟨1, "alice", get_hashed_password "pa", "alice@x.com", true, false⟩

def userB : User := ⟨2, "bob", get_hashed_password "pb", "bob@x.com", true, false⟩

def dbAB : DB :=
  ⟨[userA, userB], [⟨1, "alpha", 1⟩], [⟨1, "sub@x.com", 1⟩], [⟨1, "tpl", "body", 1⟩],
    [⟨1, 1, 1, some 10, none, 1⟩], 3, 2, 2, 2, 2⟩

/-- The digest model is injective. -/
theorem get_hashed_password_inj {p q : String}
    (h : get_hashed_password p = get_hashed_password q) : p = q := by
  have hd := congrArg String.data h
  simp only [get_hashed_password, String.data_append] at hd
  exact String.ext (List.append_cancel_left hd)

/-- C9: `verify_password p (get_hashed_password p)` is true, and
verification is false on any altered plaintext or any altered digest. -/
theorem c9_password_hash_verify_roundtrip (p p' d : String) :
    verify_password p (get_hashed_password p) = true ∧
    (p' ≠ p → verify_password p' (get_hashed_password p) = false) ∧
    (d ≠ get_hashed_password p → verify_password p d = false) := by
  refine ⟨by simp [verify_password], ?_, ?_⟩
  · intro h
    simp only [verify_password, beq_eq_false_iff_ne, ne_eq]
    intro hc
    exact h (get_hashed_password_inj hc).symm
  · intro h
    simp only [verify_password, beq_eq_false_iff_ne, ne_eq]
    exact h

/-- Witness for C9 at concrete credentials. -/
theorem c9_witness :
    verify_password "hunter2" (get_hashed_password "hunter2") = true ∧
    verify_password "hunter3" (get_hashed_password "hunter2") = false ∧
    verify_password "hunter2" "tampered-digest" = false :=
  ⟨(c9_password_hash_verify_roundtrip "hunter2" "hunter3" "tampered-digest").1,
   (c9_password_hash_verify_roundtrip "hunter2" "hunter3" "tampered-digest").2.1 (by decide),
   (c9_password_hash_verify_roundtrip "hunter2" "hunter3" "tampered-digest").2.2 (by decide)⟩

/-- C5: a token issued for user `uid` carries the `user_id` claim `uid` and
expiry 30 minutes after issuance; verification with the right key at or
before the expiry yields those claims, verification after the expiry yields
none, and verification of any token whose signature is not the key's
signature of its payload yields none. -/
theorem c5_token_issue_verify (key : String) (now now2 : Nat) (uid : Nat) :
    (create_access_token key now uid).payload.user_id = some uid ∧
    (create_access_token key now uid).payload.exp = now + 30 * 60 ∧
    (now2 ≤ now + 30 * 60 →
      verify_token key now2 (create_access_token key now uid) =
        some ⟨some uid, now + 30 * 60⟩) ∧
    (now + 30 * 60 < now2 →
      verify_token key now2 (create_access_token key now uid) = none) ∧
    (∀ t : Jwt, t.sig ≠ (key, t.payload) → verify_token key now2 t = none) := by
  refine ⟨rfl, rfl, ?_, ?_, ?_⟩
  · intro h
    simp [verify_token, jwt_decode, create_access_token, jwt_encode,
      ACCESS_TOKEN_EXPIRE_MINUTES, h]
  · intro h
    simp only [verify_token, jwt_decode, create_access_token, jwt_encode,
      ACCESS_TOKEN_EXPIRE_MINUTES]
    rw [if_neg]
    rintro ⟨-, hle⟩
    omega
  · intro t h
    simp [verify_token, jwt_decode, h]

/-- Witness for C5: issuance at time 0, verification at 100 (valid), at
1801 (expired), and of a token signed with a different key. -/
theorem c5_witness :
    verify_token "k" 100 (create_access_token "k" 0 7) = some ⟨some 7, 1800⟩ ∧
    verify_token "k" 1801 (create_access_token "k" 0 7) = none ∧
    verify_token "k" 100 ⟨⟨some 7, 1800⟩, ("other", ⟨some 7, 1800⟩)⟩ = none :=
  ⟨(c5_token_issue_verify "k" 0 100 7).2.2.1 (by norm_num),
   (c5_token_issue_verify "k" 0 1801 7).2.2.2.1 (by norm_num),
   (c5_token_issue_verify "k" 0 100 7).2.2.2.2 ⟨⟨some 7, 1800⟩, ("other", ⟨some 7, 1800⟩)⟩
     (by decide)⟩

/-- C10: the registration route, which carries no authentication, persists
the request's `is_admin` flag verbatim; a user created that way with
`is_admin = true` passes the admin gate. -/
theorem c10_unauthenticated_admin_registration (db : DB) (u : api.UserCreate)
    (usr : User) (db' : DB) (h : api.create_new_user db u = .ok (usr, db')) :
    usr.is_admin = u.is_admin ∧ usr ∈ db'.users ∧
    (u.is_admin = true → api.get_current_admin usr = .ok usr) := by
  unfold api.create_new_user UserDAO.create_user at h
  split at h
  · exact absurd h (by simp)
  · simp only [Except.ok.injEq, Prod.mk.injEq] at h
    obtain ⟨h1, h2⟩ := h
    subst h1 h2
    refine ⟨rfl, List.mem_append_right _ (List.mem_singleton.mpr rfl), ?_⟩
    intro ha
    simp [api.get_current_admin, ha]

def userEve : User := ⟨1, "eve", get_hashed_password "pw", "eve@x.com", true, true⟩

def dbEve : DB := { initialDB with users := [userEve], next_user_id := 2 }

/-- Witness for C10: registering against the empty database with
`is_admin = true` and no credentials yields an admin that passes the gate. -/
theorem c10_witness :
    userEve.is_admin = true ∧ userEve ∈ dbEve.users ∧
    api.get_current_admin userEve = .ok userEve := by
  obtain ⟨h1, h2, h3⟩ :=
    c10_unauthenticated_admin_registration initialDB ⟨"eve", "pw", "eve@x.com", true⟩
      userEve dbEve rfl
  exact ⟨h1, h2, h3 rfl⟩

/-- C2 (amended): every failure of the authentication chain — missing
token, failed signature or expiry check, absent `user_id` claim, or a user
id that no longer resolves — yields HTTP status 401, but the detail string
differs by step, so the caller can observe which step failed. -/
theorem c2_amended_auth_failures_all_401 (key : String) (now : Nat)
    (token : Option Jwt) (db : DB) (e : HErr)
    (h : api.get_current_user key now token db = .error e) :
    e.status = 401 ∧
    (e.detail = "Not authenticated" ∨ e.detail = "Invalid token" ∨
      e.detail = "Invalid user") := by
  unfold api.get_current_user at h
  repeat' split at h
  all_goals (try (injection h with h'; subst h'; exact ⟨rfl, by decide⟩))
  all_goals exact absurd h (by simp)

/-- Witness for C2's amended theorem: a request with no token at all. -/
theorem c2_witness :
    (⟨401, "Not authenticated"⟩ : HErr).status = 401 ∧
    ((⟨401, "Not authenticated"⟩ : HErr).detail = "Not authenticated" ∨
      (⟨401, "Not authenticated"⟩ : HErr).detail = "Invalid token" ∨
      (⟨401, "Not authenticated"⟩ : HErr).detail = "Invalid user") :=
  c2_amended_auth_failures_all_401 "k" 0 none initialDB ⟨401, "Not authenticated"⟩ rfl

/-- C2 counterexample: a token with a bad signature fails with detail
"Invalid token" while a valid token for a deleted user fails with detail
"Invalid user" — two observably different unauthorized outcomes, so which
step failed is visible to the caller. -/
theorem c2_counterexample :
    api.get_current_user "k" 0 (some ⟨⟨some 1, 100⟩, ("bad", ⟨some 1, 100⟩)⟩) initialDB =
      .error ⟨401, "Invalid token"⟩ ∧
    api.get_current_user "k" 0 (some (create_access_token "k" 0 1)) initialDB =
      .error ⟨401, "Invalid user"⟩ ∧
    (⟨401, "Invalid token"⟩ : HErr) ≠ ⟨401, "Invalid user"⟩ :=
  ⟨rfl, rfl, by decide⟩

/-- C1: for a mailing list owned by one user, every read, update and
delete by an authenticated caller with a different id answers the same
⟨404, "Mailing list not found"⟩ as an absent row would, and the caller's
update and delete requests leave the database — in particular the stored
name — unchanged: the handler's ownership check rejects the delete before
any DAO mutation, and the DAO update only ever mutates a detached
instance, so nothing persists on the 404 paths. -/
theorem c1_nonowner_crud_not_found_state_unchanged (db : DB) (cu : User)
    (mlid : Nat) (l : MailingList)
    (hl : MailingListDAO.get_mailing_list_by_id db mlid = some l)
    (hown : l.user_id ≠ cu.id) :
    api.read_mailing_list db cu mlid = .error ⟨404, "Mailing list not found"⟩ ∧
    (∀ n, (api.update_mailing_list db cu mlid n).1 =
      .error ⟨404, "Mailing list not found"⟩) ∧
    (∀ n, (api.update_mailing_list db cu mlid n).2 = db) ∧
    (api.delete_mailing_list db cu mlid).1 = .error ⟨404, "Mailing list not found"⟩ ∧
    (api.delete_mailing_list db cu mlid).2 = db := by
  refine ⟨?_, ?_, ?_, ?_, ?_⟩
  · unfold api.read_mailing_list
    rw [hl]
    simp [hown]
  · intro n
    unfold api.update_mailing_list MailingListDAO.update_mailing_list
    rw [hl]
    by_cases hn : n.isEmpty <;> simp [hn, hown]
  · intro n
    unfold api.update_mailing_list MailingListDAO.update_mailing_list
    rw [hl]
    by_cases hn : n.isEmpty <;> simp [hn, hown]
  · unfold api.delete_mailing_list
    rw [hl]
    simp [hown]
  · unfold api.delete_mailing_list
    rw [hl]
    simp [hown]

/-- Witness for C1: user 2 against user 1's mailing list 1 named "alpha";
the responses are 404 and the database, the stored name included, is the
one from before the requests. -/
theorem c1_witness :
    api.read_mailing_list dbAB userB 1 = .error ⟨404, "Mailing list not found"⟩ ∧
    (api.update_mailing_list dbAB userB 1 "beta").1 =
      .error ⟨404, "Mailing list not found"⟩ ∧
    (api.update_mailing_list dbAB userB 1 "beta").2 = dbAB ∧
    (api.delete_mailing_list dbAB userB 1).1 = .error ⟨404, "Mailing list not found"⟩ ∧
    (api.delete_mailing_list dbAB userB 1).2 = dbAB := by
  obtain ⟨h1, h2, h3, h4, h5⟩ :=
    c1_nonowner_crud_not_found_state_unchanged dbAB userB 1 ⟨1, "alpha", 1⟩ rfl (by decide)
  exact ⟨h1, h2 "beta", h3 "beta", h4, h5⟩

/-- C3 counterexample: in `dbAB`, mailing 1 references mailing list 1 and
template 1; deleting either the list or the template through the DAO also
deletes the mailing (the ORM relationship cascades override the NO ACTION
foreign keys for ORM-issued deletes). -/
theorem c3_counterexample :
    MailingDAO.get_mailing_by_id (MailingListDAO.delete_mailing_list dbAB 1).2 1 = none ∧
    MailingDAO.get_mailing_by_id (TemplateDAO.delete_template dbAB 1).2 1 = none :=
  ⟨rfl, rfl⟩

/-- C3 (amended): deleting an existing MailingList (resp. Template) through
the DAO also deletes every Mailing referencing it — the relationship-level
`cascade="all, delete-orphan"` governs ORM deletes despite the NO ACTION
foreign keys — so no surviving Mailing references the deleted row. -/
theorem c3_amended_orm_delete_cascades_to_mailings (db : DB) (mlid tid : Nat)
    (h1 : (MailingListDAO.delete_mailing_list db mlid).1 = true)
    (h2 : (TemplateDAO.delete_template db tid).1 = true) :
    (∀ m ∈ (MailingListDAO.delete_mailing_list db mlid).2.mailings,
      m.mailing_list_id ≠ mlid) ∧
    (∀ m ∈ (TemplateDAO.delete_template db tid).2.mailings, m.template_id ≠ tid) := by
  constructor
  · unfold MailingListDAO.delete_mailing_list at h1 ⊢
    split at h1
    · intro m hm
      simp only [List.mem_filter] at hm
      have := hm.2
      simp only [Bool.not_eq_true'] at this
      simpa using this
    · exact absurd h1 (by simp)
  · unfold TemplateDAO.delete_template at h2 ⊢
    split at h2
    · intro m hm
      simp only [List.mem_filter] at hm
      have := hm.2
      simp only [Bool.not_eq_true'] at this
      simpa using this
    · exact absurd h2 (by simp)

def dbC3w : DB :=
  ⟨[userA], [⟨1, "alpha", 1⟩, ⟨2, "beta", 1⟩], [],
    [⟨1, "tpl", "body", 1⟩, ⟨2, "tpl2", "body2", 1⟩],
    [⟨1, 2, 2, none, none, 1⟩], 2, 3, 1, 3, 2⟩

/-- Witness for C3's amended theorem: the mailing referencing list 2 and
template 2 survives the deletion of list 1 and indeed references neither. -/
theorem c3_amended_witness :
    (⟨1, 2, 2, none, none, 1⟩ : Mailing).mailing_list_id ≠ 1 :=
  (c3_amended_orm_delete_cascades_to_mailings dbC3w 1 1 rfl rfl).1
    ⟨1, 2, 2, none, none, 1⟩ (by decide)

/-- C4: among the owner-scoped handlers, template deletion alone answers
403 on an existing row owned by someone else; reading and updating either
entity, deleting a mailing list, and all subscriber operations routed
through a not-owned parent list answer 404, the same as for an absent row
(shown for an absent template id `tid2`). -/
theorem c4_template_delete_forbidden_asymmetry (db : DB) (cu : User)
    (tid tid2 mlid sid : Nat) (t : Template) (l : MailingList) (s : Subscriber)
    (ht : TemplateDAO.get_template_by_id db tid = some t)
    (htown : t.user_id ≠ cu.id)
    (ht2 : TemplateDAO.get_template_by_id db tid2 = none)
    (hl : MailingListDAO.get_mailing_list_by_id db mlid = some l)
    (hlown : l.user_id ≠ cu.id)
    (hs : SubscriberDAO.get_subscriber_by_id db sid = some s)
    (hsml : s.mailing_list_id = mlid) :
    (api.delete_template db cu tid).1 =
      .error ⟨403, "You are not allowed to delete this template"⟩ ∧
    (api.delete_template db cu tid2).1 = .error ⟨404, "Template not found"⟩ ∧
    api.read_template db cu tid = .error ⟨404, "Template not found"⟩ ∧
    (∀ n c, (api.update_template db cu tid n c).1 = .error ⟨404, "Template not found"⟩) ∧
    (api.delete_mailing_list db cu mlid).1 = .error ⟨404, "Mailing list not found"⟩ ∧
    api.read_mailing_list db cu mlid = .error ⟨404, "Mailing list not found"⟩ ∧
    (∀ n, (api.update_mailing_list db cu mlid n).1 = .error ⟨404, "Mailing list not found"⟩) ∧
    (∀ em, (api.create_new_subscriber db cu em mlid).1 =
      .error ⟨404, "Mailing list not found"⟩) ∧
    api.read_all_subscribers db cu mlid = .error ⟨404, "Mailing list not found"⟩ ∧
    (api.delete_subscriber db cu sid).1 = .error ⟨404, "Mailing list not found"⟩ := by
  refine ⟨?_, ?_, ?_, ?_, ?_, ?_, ?_, ?_, ?_, ?_⟩
  · unfold api.delete_template
    rw [ht]
    simp [htown]
  · unfold api.delete_template
    rw [ht2]
  · unfold api.read_template
    rw [ht]
    simp [htown]
  · intro n c
    unfold api.update_template TemplateDAO.update_template
    rw [ht]
    simp [htown]
  · unfold api.delete_mailing_list
    rw [hl]
    simp [hlown]
  · unfold api.read_mailing_list
    rw [hl]
    simp [hlown]
  · intro n
    unfold api.update_mailing_list MailingListDAO.update_mailing_list
    rw [hl]
    by_cases hn : n.isEmpty <;> simp [hn, hlown]
  · intro em
    unfold api.create_new_subscriber
    rw [hl]
    simp [hlown]
  · unfold api.read_all_subscribers
    rw [hl]
    simp [hlown]
  · unfold api.delete_subscriber
    simp only [hs]
    rw [hsml, hl]
    simp [hlown]

/-- Witness for C4 in the two-user scenario: user 2 against user 1's
template 1 (403 on delete, 404 elsewhere), absent template 99 (404), and
user 1's mailing list 1 and subscriber 1 (404 throughout). -/
theorem c4_witness :
    (api.delete_template dbAB userB 1).1 =
      .error ⟨403, "You are not allowed to delete this template"⟩ ∧
    (api.delete_template dbAB userB 99).1 = .error ⟨404, "Template not found"⟩ ∧
    api.read_template dbAB userB 1 = .error ⟨404, "Template not found"⟩ ∧
    (api.update_template dbAB userB 1 "n" "c").1 = .error ⟨404, "Template not found"⟩ ∧
    (api.delete_mailing_list dbAB userB 1).1 = .error ⟨404, "Mailing list not found"⟩ ∧
    api.read_mailing_list dbAB userB 1 = .error ⟨404, "Mailing list not found"⟩ ∧
    (api.update_mailing_list dbAB userB 1 "n").1 = .error ⟨404, "Mailing list not found"⟩ ∧
    (api.create_new_subscriber dbAB userB "new@x.com" 1).1 =
      .error ⟨404, "Mailing list not found"⟩ ∧
    api.read_all_subscribers dbAB userB 1 = .error ⟨404, "Mailing list not found"⟩ ∧
    (api.delete_subscriber dbAB userB 1).1 = .error ⟨404, "Mailing list not found"⟩ := by
  obtain ⟨h1, h2, h3, h4, h5, h6, h7, h8, h9, h10⟩ :=
    c4_template_delete_forbidden_asymmetry dbAB userB 1 99 1 1
      ⟨1, "tpl", "body", 1⟩ ⟨1, "alpha", 1⟩ ⟨1, "sub@x.com", 1⟩
      rfl (by decide) rfl rfl (by decide) rfl rfl
  exact ⟨h1, h2, h3, h4 "n" "c", h5, h6, h7 "n", h8 "new@x.com", h9, h10⟩

def adminRoot : User := ⟨1, "root", get_hashed_password "pr", "root@x.com", true, true⟩

def dbC6 : DB :=
  ⟨[adminRoot], [⟨1, "alpha", 1⟩], [], [⟨1, "tpl", "body", 1⟩], [], 2, 2, 1, 2, 1⟩

/-- C6 counterexample: in `dbC6`, mailing list 1 exists, yet
`update_mailing_list` with the falsy name "" returns absent rather than
the entity; and user 1 has `is_admin = true`, yet `update_user` with the
falsy value `is_admin = false` changes the stored flag rather than leaving
it unchanged. -/
theorem c6_counterexample :
    MailingListDAO.get_mailing_list_by_id dbC6 1 = some ⟨1, "alpha", 1⟩ ∧
    (MailingListDAO.update_mailing_list dbC6 1 (some "")).1 = none ∧
    adminRoot.is_admin = true ∧
    (UserDAO.update_user dbC6 1 none none none (some false)).1.map User.is_admin =
      some false :=
  ⟨rfl, rfl, rfl, rfl⟩

/-- C6 (amended): for existing rows, `update_user` and `update_template`
leave each string field unchanged when the supplied value is absent or
empty and apply it otherwise, and always return the row; `update_user`
applies `is_admin` whenever it is present, including `false`;
`update_mailing_list` returns absent and leaves the database unchanged
when no nonempty name is supplied, even though the row exists, and applies
a nonempty name; each update returns absent when no row has the id. -/
theorem c6_amended_partial_update_semantics (db : DB)
    (uid tid mlid uid2 tid2 mlid2 : Nat) (u : User) (t : Template) (l : MailingList)
    (hu : UserDAO.get_user_by_id db uid = some u)
    (ht : TemplateDAO.get_template_by_id db tid = some t)
    (hl : MailingListDAO.get_mailing_list_by_id db mlid = some l)
    (hu2 : UserDAO.get_user_by_id db uid2 = none)
    (ht2 : TemplateDAO.get_template_by_id db tid2 = none)
    (hl2 : MailingListDAO.get_mailing_list_by_id db mlid2 = none) :
    (∀ un hp em ia, (UserDAO.update_user db uid (some un) (some hp) (some em) (some ia)).1 =
      some { u with
        username := if un.isEmpty then u.username else un,
        hashed_password := if hp.isEmpty then u.hashed_password else hp,
        email := if em.isEmpty then u.email else em,
        is_admin := ia }) ∧
    (UserDAO.update_user db uid (some "") (some "") (some "") none).1 = some u ∧
    (∀ n c, (TemplateDAO.update_template db tid (some n) (some c)).1 =
      some { t with
        name := if n.isEmpty then t.name else n,
        content := if c.isEmpty then t.content else c }) ∧
    (TemplateDAO.update_template db tid (some "") (some "")).1 = some t ∧
    MailingListDAO.update_mailing_list db mlid (some "") = (none, db) ∧
    (∀ n, ¬ n.isEmpty →
      (MailingListDAO.update_mailing_list db mlid (some n)).1 = some { l with name := n }) ∧
    (∀ a b c d, (UserDAO.update_user db uid2 a b c d).1 = none) ∧
    (∀ a b, (TemplateDAO.update_template db tid2 a b).1 = none) ∧
    (∀ a, (MailingListDAO.update_mailing_list db mlid2 a).1 = none) := by
  refine ⟨?_, ?_, ?_, ?_, ?_, ?_, ?_, ?_, ?_⟩
  · intro un hp em ia
    unfold UserDAO.update_user
    rw [hu]
    rfl
  · unfold UserDAO.update_user
    rw [hu]
    rfl
  · intro n c
    unfold TemplateDAO.update_template
    rw [ht]
    rfl
  · unfold TemplateDAO.update_template
    rw [ht]
    rfl
  · unfold MailingListDAO.update_mailing_list
    rw [hl]
    rfl
  · intro n hn
    unfold MailingListDAO.update_mailing_list
    rw [hl]
    simp [hn]
  · intro a b c d
    unfold UserDAO.update_user
    rw [hu2]
  · intro a b
    unfold TemplateDAO.update_template
    rw [ht2]
  · intro a
    unfold MailingListDAO.update_mailing_list
    rw [hl2]

/-- Witness for C6's amended theorem in `dbC6` (ids 1 present, 9 absent). -/
theorem c6_witness :
    (UserDAO.update_user dbC6 1 (some "sys") (some "") (some "") (some false)).1 =
      some { adminRoot with username := "sys", is_admin := false } ∧
    (UserDAO.update_user dbC6 1 (some "") (some "") (some "") none).1 = some adminRoot ∧
    (TemplateDAO.update_template dbC6 1 (some "tpl2") (some "")).1 =
      some { (⟨1, "tpl", "body", 1⟩ : Template) with name := "tpl2" } ∧
    (TemplateDAO.update_template dbC6 1 (some "") (some "")).1 =
      some ⟨1, "tpl", "body", 1⟩ ∧
    MailingListDAO.update_mailing_list dbC6 1 (some "") = (none, dbC6) ∧
    (MailingListDAO.update_mailing_list dbC6 1 (some "beta")).1 = some ⟨1, "beta", 1⟩ ∧
    (UserDAO.update_user dbC6 9 (some "x") none none none).1 = none ∧
    (TemplateDAO.update_template dbC6 9 (some "x") none).1 = none ∧
    (MailingListDAO.update_mailing_list dbC6 9 (some "x")).1 = none := by
  obtain ⟨h1, h2, h3, h4, h5, h6, h7, h8, h9⟩ :=
    c6_amended_partial_update_semantics dbC6 1 1 1 9 9 9 adminRoot
      ⟨1, "tpl", "body", 1⟩ ⟨1, "alpha", 1⟩ rfl rfl rfl rfl rfl rfl
  refine ⟨?_, h2, ?_, h4, h5, ?_, h7 (some "x") none none none,
    h8 (some "x") none, h9 (some "x")⟩
  · rw [h1 "sys" "" "" false]
    rfl
  · rw [h3 "tpl2" ""]
    rfl
  · rw [h6 "beta" (by decide)]

/-- One committed DAO mutation (dal.py): the transition relation of the
persistence layer. -/
inductive Step : DB → DB → Prop where
| create_user (db : DB) (un hp em : String) (ia : Bool) (u : User) (db' : DB)
    (h : UserDAO.create_user db un hp em ia = .ok (u, db')) : Step db db'
| update_user (db : DB) (uid : Nat) (un hp em : Option String) (ia : Option Bool) :
    Step db (UserDAO.update_user db uid un hp em ia).2
| delete_user (db : DB) (uid : Nat) : Step db (UserDAO.delete_user db uid).2
| create_mailing_list (db : DB) (n : String) (uid : Nat) :
    Step db (MailingListDAO.create_mailing_list db n uid).2
| update_mailing_list (db : DB) (mlid : Nat) (n : Option String) :
    Step db (MailingListDAO.update_mailing_list db mlid n).2
| delete_mailing_list (db : DB) (mlid : Nat) :
    Step db (MailingListDAO.delete_mailing_list db mlid).2
| create_subscriber (db : DB) (em : String) (mlid : Nat) (s : Subscriber) (db' : DB)
    (h : SubscriberDAO.create_subscriber db em mlid = .ok (s, db')) : Step db db'
| delete_subscriber (db : DB) (sid : Nat) :
    Step db (SubscriberDAO.delete_subscriber db sid).2
| create_template (db : DB) (n c : String) (uid : Nat) :
    Step db (TemplateDAO.create_template db n c uid).2
| update_template (db : DB) (tid : Nat) (n c : Option String) :
    Step db (TemplateDAO.update_template db tid n c).2
| delete_template (db : DB) (tid : Nat) : Step db (TemplateDAO.delete_template db tid).2
| create_mailing (db : DB) (mlid tid : Nat) (sch : Option Nat) (uid : Nat) :
    Step db (MailingDAO.create_mailing db mlid tid sch uid).2
| update_mailing (db : DB) (mid : Nat) (sent : Option Nat) :
    Step db (MailingDAO.update_mailing db mid sent).2

/-- States reachable from the fresh schema by committed DAO mutations. -/
inductive Reachable : DB → Prop where
| init : Reachable initialDB
| step (db db' : DB) (h : Reachable db) (hs : Step db db') : Reachable db'

/-- The invariant of the `subscribers.email` unique constraint: no two
rows of the whole table — across all mailing lists — share an email. -/
def EmailsUnique (db : DB) : Prop :=
  db.subscribers.Pairwise (fun a b => a.email ≠ b.email)

theorem update_user_subscribers (db : DB) (uid : Nat)
    (a b c : Option String) (d : Option Bool) :
    (UserDAO.update_user db uid a b c d).2.subscribers = db.subscribers := by
  unfold UserDAO.update_user
  cases UserDAO.get_user_by_id db uid <;> rfl

theorem delete_user_subscribers (db : DB) (uid : Nat) :
    (UserDAO.delete_user db uid).2.subscribers.Sublist db.subscribers := by
  unfold UserDAO.delete_user
  cases UserDAO.get_user_by_id db uid
  · exact List.Sublist.refl _
  · exact List.filter_sublist _

theorem update_mailing_list_subscribers (db : DB) (mlid : Nat) (n : Option String) :
    (MailingListDAO.update_mailing_list db mlid n).2.subscribers = db.subscribers := by
  unfold MailingListDAO.update_mailing_list
  cases MailingListDAO.get_mailing_list_by_id db mlid
  · rfl
  · cases n
    · rfl
    · rename_i s
      by_cases hs : s.isEmpty <;> simp [hs]

theorem delete_mailing_list_subscribers (db : DB) (mlid : Nat) :
    (MailingListDAO.delete_mailing_list db mlid).2.subscribers.Sublist db.subscribers := by
  unfold MailingListDAO.delete_mailing_list
  cases MailingListDAO.get_mailing_list_by_id db mlid
  · exact List.Sublist.refl _
  · exact List.filter_sublist _

theorem delete_subscriber_subscribers (db : DB) (sid : Nat) :
    (SubscriberDAO.delete_subscriber db sid).2.subscribers.Sublist db.subscribers := by
  unfold SubscriberDAO.delete_subscriber
  cases SubscriberDAO.get_subscriber_by_id db sid
  · exact List.Sublist.refl _
  · exact List.filter_sublist _

theorem update_template_subscribers (db : DB) (tid : Nat) (n c : Option String) :
    (TemplateDAO.update_template db tid n c).2.subscribers = db.subscribers := by
  unfold TemplateDAO.update_template
  cases TemplateDAO.get_template_by_id db tid <;> rfl

theorem delete_template_subscribers (db : DB) (tid : Nat) :
    (TemplateDAO.delete_template db tid).2.subscribers = db.subscribers := by
  unfold TemplateDAO.delete_template
  cases TemplateDAO.get_template_by_id db tid <;> rfl

theorem update_mailing_subscribers (db : DB) (mid : Nat) (sent : Option Nat) :
    (MailingDAO.update_mailing db mid sent).2.subscribers = db.subscribers := by
  unfold MailingDAO.update_mailing
  cases MailingDAO.get_mailing_by_id db mid <;> rfl

/-- Every DAO mutation preserves global uniqueness of subscriber emails:
creation is guarded by the unique constraint, deletions only shrink the
table, and no operation rewrites an email in place. -/
theorem emailsUnique_step {db db' : DB} (h : Step db db')
    (hinv : EmailsUnique db) : EmailsUnique db' := by
  cases h with
  | create_user un hp em ia u db2 heq =>
    unfold UserDAO.create_user at heq
    split at heq
    · exact absurd heq (by simp)
    · simp only [Except.ok.injEq, Prod.mk.injEq] at heq
      obtain ⟨-, h2⟩ := heq
      subst h2
      exact hinv
  | update_user uid un hp em ia =>
    unfold EmailsUnique
    rw [update_user_subscribers]
    exact hinv
  | delete_user uid =>
    exact List.Pairwise.sublist (delete_user_subscribers db uid) hinv
  | create_mailing_list n uid => exact hinv
  | update_mailing_list mlid n =>
    unfold EmailsUnique
    rw [update_mailing_list_subscribers]
    exact hinv
  | delete_mailing_list mlid =>
    exact List.Pairwise.sublist (delete_mailing_list_subscribers db mlid) hinv
  | create_subscriber em mlid s db2 heq =>
    unfold SubscriberDAO.create_subscriber at heq
    split at heq
    · exact absurd heq (by simp)
    · rename_i hdup
      simp only [Except.ok.injEq, Prod.mk.injEq] at heq
      obtain ⟨-, h2⟩ := heq
      subst h2
      unfold EmailsUnique
      show (db.subscribers ++ [(⟨db.next_subscriber_id, em, mlid⟩ : Subscriber)]).Pairwise
        (fun a b => a.email ≠ b.email)
      rw [List.pairwise_append]
      refine ⟨hinv, List.pairwise_singleton _ _, ?_⟩
      intro a ha b hb
      simp only [List.mem_singleton] at hb
      subst hb
      intro hc
      apply hdup
      rw [List.any_eq_true]
      exact ⟨a, ha, by simp [hc]⟩
  | delete_subscriber sid =>
    exact List.Pairwise.sublist (delete_subscriber_subscribers db sid) hinv
  | create_template n c uid => exact hinv
  | update_template tid n c =>
    unfold EmailsUnique
    rw [update_template_subscribers]
    exact hinv
  | delete_template tid =>
    unfold EmailsUnique
    rw [delete_template_subscribers]
    exact hinv
  | create_mailing mlid tid sch uid => exact hinv
  | update_mailing mid sent =>
    unfold EmailsUnique
    rw [update_mailing_subscribers]
    exact hinv

/-- C7: in every state reachable through the persistence operations no two
Subscriber rows share an email — uniqueness is global, not per list — and
creating a subscriber whose email is already enrolled in any (possibly
different) mailing list fails with the uniqueness conflict. -/
theorem c7_subscriber_email_globally_unique :
    (∀ db : DB, Reachable db → EmailsUnique db) ∧
    (∀ (db : DB) (em : String) (mlid : Nat),
      (∃ s ∈ db.subscribers, s.email = em) →
      SubscriberDAO.create_subscriber db em mlid = .error "IntegrityError") := by
  constructor
  · intro db h
    induction h with
    | init => exact List.Pairwise.nil
    | step db db' hr hs ih => exact emailsUnique_step hs ih
  · rintro db em mlid ⟨s, hs, he⟩
    unfold SubscriberDAO.create_subscriber
    rw [if_pos]
    rw [List.any_eq_true]
    exact ⟨s, hs, by simp [he]⟩

def dbR1 : DB := { initialDB with users := [userA], next_user_id := 2 }

def dbR2 : DB := { dbR1 with mailing_lists := [⟨1, "alpha", 1⟩], next_mailing_list_id := 2 }

def dbReach : DB := { dbR2 with subscribers := [⟨1, "sub@x.com", 1⟩], next_subscriber_id := 2 }

/-- Witness for C7: a state reached by creating a user, a mailing list and
a subscriber satisfies the invariant, and enrolling the same email in a
second (different) mailing list hits the uniqueness conflict. -/
theorem c7_witness :
    EmailsUnique dbReach ∧
    SubscriberDAO.create_subscriber dbReach "sub@x.com" 2 = .error "IntegrityError" := by
  have h1 : Reachable dbR1 :=
    Reachable.step initialDB dbR1 Reachable.init
      (Step.create_user initialDB "alice" (get_hashed_password "pa") "alice@x.com" false
        userA dbR1 rfl)
  have h2 : Reachable dbR2 :=
    Reachable.step dbR1 dbR2 h1 (Step.create_mailing_list dbR1 "alpha" 1)
  have h3 : Reachable dbReach :=
    Reachable.step dbR2 dbReach h2
      (Step.create_subscriber dbR2 "sub@x.com" 1 ⟨1, "sub@x.com", 1⟩ dbReach rfl)
  exact ⟨c7_subscriber_email_globally_unique.1 dbReach h3,
    c7_subscriber_email_globally_unique.2 dbReach "sub@x.com" 2
      ⟨⟨1, "sub@x.com", 1⟩, by decide, rfl⟩⟩

/-- Primary-key uniqueness of `mailing_lists.id`. -/
def MailingListIdsUnique (db : DB) : Prop :=
  db.mailing_lists.Pairwise (fun a b => a.id ≠ b.id)

/-- Primary-key uniqueness of `templates.id`. -/
def TemplateIdsUnique (db : DB) : Prop :=
  db.templates.Pairwise (fun a b => a.id ≠ b.id)

/-- Primary-key uniqueness of `mailings.id`. -/
def MailingIdsUnique (db : DB) : Prop :=
  db.mailings.Pairwise (fun a b => a.id ≠ b.id)

/-- C8: once `delete_user` has returned true for `uid`, listing the user's
mailing lists, templates and mailings yields empty, and looking up any of
the formerly owned rows by id yields absent (primary keys assumed unique,
as the schema guarantees). -/
theorem c8_delete_user_cascades (db : DB) (uid : Nat)
    (hml : MailingListIdsUnique db) (htu : TemplateIdsUnique db)
    (hmu : MailingIdsUnique db)
    (hdel : (UserDAO.delete_user db uid).1 = true) :
    MailingListDAO.get_mailing_lists_by_user_id (UserDAO.delete_user db uid).2 uid = [] ∧
    TemplateDAO.get_templates_by_user_id (UserDAO.delete_user db uid).2 uid = [] ∧
    MailingDAO.get_mailings_by_user_id (UserDAO.delete_user db uid).2 uid = [] ∧
    (∀ l ∈ db.mailing_lists, l.user_id = uid →
      MailingListDAO.get_mailing_list_by_id (UserDAO.delete_user db uid).2 l.id = none) ∧
    (∀ t ∈ db.templates, t.user_id = uid →
      TemplateDAO.get_template_by_id (UserDAO.delete_user db uid).2 t.id = none) ∧
    (∀ m ∈ db.mailings, m.user_id = uid →
      MailingDAO.get_mailing_by_id (UserDAO.delete_user db uid).2 m.id = none) := by
  rcases hfind : UserDAO.get_user_by_id db uid with - | u
  · rw [UserDAO.delete_user, hfind] at hdel
    exact absurd hdel (by simp)
  · have hdb : (UserDAO.delete_user db uid).2 =
        { db with
          users := db.users.filter (fun x => !(x.id == uid)),
          mailing_lists := db.mailing_lists.filter (fun l => !(l.user_id == uid)),
          templates := db.templates.filter (fun t => !(t.user_id == uid)),
          subscribers := db.subscribers.filter (fun s =>
            !(((db.mailing_lists.filter (fun l => l.user_id == uid)).map
              MailingList.id).contains s.mailing_list_id)),
          mailings := db.mailings.filter (fun m =>
            !(m.user_id == uid
              || ((db.mailing_lists.filter (fun l => l.user_id == uid)).map
                MailingList.id).contains m.mailing_list_id
              || ((db.templates.filter (fun t => t.user_id == uid)).map
                Template.id).contains m.template_id)) } := by
      rw [UserDAO.delete_user, hfind]
    rw [hdb]
    refine ⟨?_, ?_, ?_, ?_, ?_, ?_⟩
    · unfold MailingListDAO.get_mailing_lists_by_user_id
      simp only [List.filter_filter]
      rw [List.filter_eq_nil_iff]
      intro a ha
      cases hb : a.user_id == uid <;> simp [hb]
    · unfold TemplateDAO.get_templates_by_user_id
      simp only [List.filter_filter]
      rw [List.filter_eq_nil_iff]
      intro a ha
      cases hb : a.user_id == uid <;> simp [hb]
    · unfold MailingDAO.get_mailings_by_user_id
      simp only [List.filter_filter]
      rw [List.filter_eq_nil_iff]
      intro a ha
      cases hb : a.user_id == uid <;> simp [hb]
    · intro l hlmem hluid
      unfold MailingListDAO.get_mailing_list_by_id
      rw [List.find?_eq_none]
      intro x hx
      simp only [List.mem_filter, Bool.not_eq_true', beq_eq_false_iff_ne, ne_eq] at hx
      obtain ⟨hx1, hx2⟩ := hx
      simp only [beq_iff_eq, ne_eq]
      intro hxid
      have hxl : x = l := by
        by_contra hne
        exact List.Pairwise.forall (fun _ _ hab => Ne.symm hab) hml hx1 hlmem hne hxid
      exact hx2 (hxl ▸ hluid)
    · intro t htmem htuid
      unfold TemplateDAO.get_template_by_id
      rw [List.find?_eq_none]
      intro x hx
      simp only [List.mem_filter, Bool.not_eq_true', beq_eq_false_iff_ne, ne_eq] at hx
      obtain ⟨hx1, hx2⟩ := hx
      simp only [beq_iff_eq, ne_eq]
      intro hxid
      have hxt : x = t := by
        by_contra hne
        exact List.Pairwise.forall (fun _ _ hab => Ne.symm hab) htu hx1 htmem hne hxid
      exact hx2 (hxt ▸ htuid)
    · intro m hmmem hmuid
      unfold MailingDAO.get_mailing_by_id
      rw [List.find?_eq_none]
      intro x hx
      simp only [List.mem_filter, Bool.not_eq_true', Bool.or_eq_false_iff,
        beq_eq_false_iff_ne, ne_eq] at hx
      obtain ⟨hx1, ⟨hx2, -⟩, -⟩ := hx
      simp only [beq_iff_eq, ne_eq]
      intro hxid
      have hxm : x = m := by
        by_contra hne
        exact List.Pairwise.forall (fun _ _ hab => Ne.symm hab) hmu hx1 hmmem hne hxid
      exact hx2 (hxm ▸ hmuid)

/-- Witness for C8 in the two-user scenario: deleting user 1 removes the
mailing list, the template and the mailing user 1 owned, from both the
by-owner listings and the by-id lookups. -/
theorem c8_witness :
    MailingListDAO.get_mailing_lists_by_user_id (UserDAO.delete_user dbAB 1).2 1 = [] ∧
    TemplateDAO.get_templates_by_user_id (UserDAO.delete_user dbAB 1).2 1 = [] ∧
    MailingDAO.get_mailings_by_user_id (UserDAO.delete_user dbAB 1).2 1 = [] ∧
    MailingListDAO.get_mailing_list_by_id (UserDAO.delete_user dbAB 1).2 1 = none ∧
    TemplateDAO.get_template_by_id (UserDAO.delete_user dbAB 1).2 1 = none ∧
    MailingDAO.get_mailing_by_id (UserDAO.delete_user dbAB 1).2 1 = none := by
  obtain ⟨h1, h2, h3, h4, h5, h6⟩ :=
    c8_delete_user_cascades dbAB 1 (List.pairwise_singleton _ _)
      (List.pairwise_singleton _ _) (List.pairwise_singleton _ _) rfl
  exact ⟨h1, h2, h3, h4 ⟨1, "alpha", 1⟩ (by decide) rfl,
    h5 ⟨1, "tpl", "body", 1⟩ (by decide) rfl,
    h6 ⟨1, 1, 1, some 10, none, 1⟩ (by decide) rfl⟩
